import Mathlib

/-!
Verification development for a payment-app configuration and webhook
lifecycle manager with a transaction session state mapper.

JavaScript objects that the source manipulates with spread syntax are
embedded as association lists of key/value pairs; `jget` models property
lookup and `jset` models a single property assignment in an object
literal (an existing key keeps its position and receives the new value,
a new key is appended at the end, as in a JS object literal).
-/

/-- A JSON-like value, enough for the payment-intent request payloads. -/
inductive JVal where
  | jstr (s : String)
  | jnum (n : Int)
  | jbool (b : Bool)
  | jobj (fields : List (String × JVal))

/-- Property lookup on an association-list object. -/
def jget {α : Type} : List (String × α) → String → Option α
  | [], _ => none
  | (k₀, v) :: rest, k => if k₀ = k then some v else jget rest k

/-- One property assignment in an object literal: an existing key keeps
its position and gets the new value, otherwise the key is appended. -/
def jset {α : Type} : List (String × α) → String → α → List (String × α)
  | [], k, v => [(k, v)]
  | (k₀, v₀) :: rest, k, v =>
      if k₀ = k then (k, v) :: rest else (k₀, v₀) :: jset rest k v

/-- Spread merge of two objects, later keys win, as in a JS spread of
the second object over the first. -/
def jmergeObj {α : Type} (o u : List (String × α)) : List (String × α) :=
  u.foldl (fun acc kv => jset acc kv.1 kv.2) o

theorem jget_jset {α : Type} (o : List (String × α)) (k k₀ : String) (v : α) :
    jget (jset o k v) k₀ = if k = k₀ then some v else jget o k₀ := by
  induction o with
  | nil =>
      by_cases h : k = k₀ <;> simp [jset, jget, h]
  | cons hd tl ih =>
      obtain ⟨k₁, v₁⟩ := hd
      by_cases h1 : k₁ = k
      · subst h1
        by_cases h2 : k₁ = k₀ <;> simp [jset, jget, h2]
      · by_cases h2 : k₁ = k₀
        · subst h2
          have hk : ¬k = k₁ := fun h => h1 h.symm
          simp [jset, jget, h1, hk]
        · simp [jset, jget, h1, h2, ih]

theorem jget_eq_none_of_not_mem {α : Type} (o : List (String × α)) (k : String)
    (h : k ∉ o.map Prod.fst) : jget o k = none := by
  induction o with
  | nil => rfl
  | cons hd tl ih =>
      obtain ⟨k₁, v₁⟩ := hd
      simp only [List.map_cons, List.mem_cons] at h
      push_neg at h
      have hne : ¬k₁ = k := fun he => h.1 he.symm
      simp [jget, hne, ih h.2]

/-- A JS object has no duplicate keys, so for a merge whose second
argument has distinct keys, a key supplied by the second argument wins
and a key it does not supply falls through to the first argument. -/
theorem jget_jmergeObj {α : Type} (o u : List (String × α)) (k : String)
    (hu : (u.map Prod.fst).Nodup) :
    jget (jmergeObj o u) k =
      match jget u k with
      | some v => some v
      | none => jget o k := by
  induction u generalizing o with
  | nil => simp [jmergeObj, jget]
  | cons hd tl ih =>
      obtain ⟨k₁, v₁⟩ := hd
      simp only [List.map_cons, List.nodup_cons] at hu
      have step : jmergeObj o ((k₁, v₁) :: tl) = jmergeObj (jset o k₁ v₁) tl := rfl
      rw [step, ih _ hu.2]
      by_cases h : k₁ = k
      · subst h
        rw [jget_eq_none_of_not_mem tl k₁ hu.1]
        simp [jget, jget_jset]
      · simp only [jget, h, if_false]
        cases jget tl k <;> simp [jget_jset, h]

/-! ## Transaction session mapper (stripe-api module) -/

/-- The platform flow-strategy enumeration: authorization-only or
immediate charge. -/
inductive TransactionFlowStrategyEnum where
  | Authorization
  | Charge
deriving DecidableEq

/-- Result translation from a processor payment-intent status and the
requested flow strategy to the platform transaction result.  The source
computes a prefix from the strategy (the invariant guarding a third
strategy value is unreachable over this two-valued enumeration) and then
switches over the status; a status outside the handled enumeration falls
off the switch, which in the source yields the implicit undefined value,
embedded here as `none`. -/
def stripePaymentIntentToTransactionResult
    (transactionFlowStrategy : TransactionFlowStrategyEnum)
    (stripeStatus : String) : Option String :=
  let pfx :=
    match transactionFlowStrategy with
    | .Authorization => "AUTHORIZATION"
    | .Charge => "CHARGE"
  match stripeStatus with
  | "requires_payment_method" => some (pfx ++ "_REQUESTED")
  | "processing" => some (pfx ++ "_REQUESTED")
  | "requires_action" => some (pfx ++ "_ACTION_REQUIRED")
  | "requires_capture" => some (pfx ++ "_ACTION_REQUIRED")
  | "requires_confirmation" => some (pfx ++ "_ACTION_REQUIRED")
  | "canceled" => some (pfx ++ "_FAILURE")
  | "succeeded" => some (pfx ++ "_SUCCESS")
  | _ => none

/-- The payment-intent statuses handled by the switch in
`stripePaymentIntentToTransactionResult`. -/
def handledIntentStatuses : List String :=
  ["requires_payment_method", "processing", "requires_action",
   "requires_capture", "requires_confirmation", "canceled", "succeeded"]

/-- The strategy-determined result text to the left of the underscore
suffix. -/
def strategyPfx : TransactionFlowStrategyEnum → String
  | .Authorization => "AUTHORIZATION"
  | .Charge => "CHARGE"

/-- The type tag distinguishing the two source-object payload shapes. -/
inductive SourceObjectTypename where
  | Checkout
  | Order
deriving DecidableEq

/-- The source object of a transaction session event: the tagged union
of Checkout and Order, each exposing its own id, channel id, and total
gross amount/currency. -/
structure SourceObject where
  typename : SourceObjectTypename
  id : String
  channelId : String
  grossAmount : ℚ
  grossCurrency : String

/-- A transaction session event as consumed by the request builders:
flow strategy, source object, transaction id and the opaque caller data
payload that is passed through to the processor request. -/
structure TransactionSessionEvent where
  data : List (String × JVal)
  sourceObject : SourceObject
  actionType : TransactionFlowStrategyEnum
  transactionId : String

/-- Modelled from the spec: the zero-decimal currency table of the
amount converter is asserted by the spec but not present in the reviewed
source (the currencies module is not part of this excerpt); the list
follows the processor documentation for zero-decimal currencies. -/
def zeroDecimalCurrencies : List String :=
  ["BIF", "CLP", "DJF", "GNF", "JPY", "KMF", "KRW", "MGA",
   "PYG", "RWF", "UGX", "VND", "VUV", "XAF", "XOF", "XPF"]

/-- Modelled from the spec: `getStripeAmountFromSaleorMoney` converts a
major-unit decimal amount into the processor minor-unit integer,
currency aware — zero-decimal currencies do not multiply, all others
multiply by 100; the source of this converter is not in the reviewed
excerpt. -/
def getStripeAmountFromSaleorMoney (amount : ℚ) (currency : String) : Int :=
  if currency ∈ zeroDecimalCurrencies then round amount else round (amount * 100)

/-- The reserved metadata object built identically by the create and
update request builders: the caller metadata spread first, then the
transaction id, the channel id, and the id key selected by the source
object type tag. -/
def sessionEventMetadata (event : TransactionSessionEvent) : List (String × JVal) :=
  let dataMetadata : List (String × JVal) :=
    match jget event.data "metadata" with
    | some (.jobj m) => m
    | _ => []
  let base :=
    jset (jset dataMetadata
      "transactionId" (.jstr event.transactionId))
      "channelId" (.jstr event.sourceObject.channelId)
  match event.sourceObject.typename with
  | .Checkout => jset base "checkoutId" (.jstr event.sourceObject.id)
  | .Order => jset base "orderId" (.jstr event.sourceObject.id)

/-- The caller-supplied metadata object inside the event data payload
(empty when absent). -/
def callerMetadata (event : TransactionSessionEvent) : List (String × JVal) :=
  match jget event.data "metadata" with
  | some (.jobj m) => m
  | _ => []

/-- Payment-intent creation request built from a session initialize
event: the caller data object spread first, then amount, currency,
automatic payment methods (forced enabled), capture method from the
flow strategy, and the reserved metadata object. -/
def transactionSessionInitializeEventToStripeCreate
    (event : TransactionSessionEvent) : List (String × JVal) :=
  jset (jset (jset (jset (jset event.data
    "amount" (.jnum (getStripeAmountFromSaleorMoney
      event.sourceObject.grossAmount event.sourceObject.grossCurrency)))
    "currency" (.jstr event.sourceObject.grossCurrency))
    "automatic_payment_methods" (.jobj [("enabled", .jbool true)]))
    "capture_method" (.jstr (if event.actionType = .Charge then "automatic" else "manual")))
    "metadata" (.jobj (sessionEventMetadata event))

/-- Payment-intent update request built from a session event: the same
construction as the create request but without the automatic payment
methods assignment. -/
def transactionSessionProcessEventToStripeUpdate
    (event : TransactionSessionEvent) : List (String × JVal) :=
  jset (jset (jset (jset event.data
    "amount" (.jnum (getStripeAmountFromSaleorMoney
      event.sourceObject.grossAmount event.sourceObject.grossCurrency)))
    "currency" (.jstr event.sourceObject.grossCurrency))
    "capture_method" (.jstr (if event.actionType = .Charge then "automatic" else "manual")))
    "metadata" (.jobj (sessionEventMetadata event))

/-! ## Error taxonomy and credential validation -/

/-- The field-level hint carried by each field error class of the error
module: the `fieldName` prop fixed by the subclass declaration. -/
def errorClassFieldName : String → Option String
  | "RestrictedKeyNotSupportedError" => some "secretKey"
  | "InvalidSecretKeyError" => some "secretKey"
  | "UnexpectedSecretKeyError" => some "secretKey"
  | "InvalidPublishableKeyError" => some "publishableKey"
  | "UnexpectedPublishableKeyError" => some "publishableKey"
  | _ => none

/-- String prefix test, an executable model of the startsWith method of
JS strings (the built-in String.startsWith of the proof assistant does
not reduce in the kernel). -/
def strStartsWith (s pre : String) : Bool := pre.data.isPrefixOf s.data

/-- A thrown field error: the error class name, the field-level hint the
class carries, and the message. -/
structure ThrownFieldError where
  name : String
  fieldName : String
  message : String
deriving DecidableEq

/-- Outcome of one live credential check against the processor, when it
fails: either a processor error (a StripeError instance) or any other
failure of the validation call itself. -/
inductive LiveCheckFailure where
  | stripeErr
  | otherErr
deriving DecidableEq

/-- `validateStripeKeys`, with the outcome of each of the two live
checks passed in explicitly (the key list call for the secret key and
the token creation call for the publishable key).  A restricted key is
rejected before any check; a secret-key check failure throws
`InvalidSecretKeyError`; a publishable-key check failure also throws
`InvalidSecretKeyError` in the source, with a message naming the
publishable key.  Each thrown error carries the `fieldName` prop of its
class. -/
def validateStripeKeys (secretKey publishableKey : String)
    (secretCheck pubCheck : Option LiveCheckFailure) :
    Except ThrownFieldError Unit :=
  if strStartsWith secretKey "rk_" then
    .error ⟨"RestrictedKeyNotSupportedError", "secretKey",
      "Restricted keys are not supported"⟩
  else
    match secretCheck with
    | some .stripeErr =>
        .error ⟨"InvalidSecretKeyError", "secretKey",
          "Provided secret key is invalid"⟩
    | some .otherErr =>
        .error ⟨"InvalidSecretKeyError", "secretKey",
          "There was an error while checking secret key"⟩
    | none =>
        match pubCheck with
        | some .stripeErr =>
            .error ⟨"InvalidSecretKeyError", "secretKey",
              "Provided publishable key is invalid"⟩
        | some .otherErr =>
            .error ⟨"InvalidSecretKeyError", "secretKey",
              "There was an error while checking publishable key"⟩
        | none => .ok ()

/-! ## Configuration store: Configurator and config-manager lifecycle -/

/-- A configuration entry at the JS runtime level: a string-valued
object (ids, names, keys and secrets are all strings); property lookup
on a missing key yields `none`, the undefined value. -/
abbrev ConfigEntry := List (String × String)

/-- The per-tenant aggregate: the ordered configurations list and the
channel-to-configuration-id mapping. -/
structure AppConfig where
  configurations : List ConfigEntry
  channelToConfigurationId : List (String × String)
deriving DecidableEq

/-- A partial aggregate as passed to the underlying metadata
configurator: each field either present or absent. -/
structure PartialAppConfig where
  configurations : Option (List ConfigEntry)
  channelToConfigurationId : Option (List (String × String))
deriving DecidableEq

/-- Modelled from the spec: the underlying metadata configurator
setConfig merges the fields present in the partial over the stored
aggregate; with replace true the present fields fully replace the
stored ones (arrays and maps are never deep-merged element-wise).  For
this two-field aggregate both modes amount to: a field present in the
partial replaces the stored field and an absent field keeps its stored
value.  The source of this leaf is not in the reviewed excerpt. -/
def metadataSetConfig (cfg : AppConfig) (p : PartialAppConfig)
    (_replaceFlag : Bool) : AppConfig :=
  { configurations := p.configurations.getD cfg.configurations,
    channelToConfigurationId :=
      p.channelToConfigurationId.getD cfg.channelToConfigurationId }

namespace AppConfigurator

/-- `setConfigEntry`: adds a new config entry or updates an existing
one.  An entry whose configurationId equals the one supplied is replaced
in place by the spread merge of the supplied fields over it; otherwise
the supplied entry is appended; the write passes only the configurations
field (a merge write, replace false). -/
def setConfigEntry (cfg : AppConfig) (newConfiguration : ConfigEntry) : AppConfig :=
  let configurations := cfg.configurations
  match configurations.findIdx?
      (fun entry => jget entry "configurationId" == jget newConfiguration "configurationId") with
  | some existingEntryIndex =>
      let existingEntry := configurations[existingEntryIndex]!
      let mergedEntry := jmergeObj existingEntry newConfiguration
      metadataSetConfig cfg
        ⟨some (configurations.set existingEntryIndex mergedEntry), none⟩ false
  | none =>
      metadataSetConfig cfg ⟨some (configurations ++ [newConfiguration]), none⟩ false

/-- `deleteConfigEntry` on the Configurator: recomputes the whole
aggregate — configurations without the entry, mappings without the
values pointing at it — and writes it in one call with replace true.
The returned Bool is the replace flag passed to that single write. -/
def deleteConfigEntry (cfg : AppConfig) (configurationId : String) :
    AppConfig × Bool :=
  let newConfigurations := cfg.configurations.filter
    (fun entry => jget entry "configurationId" != some configurationId)
  let newMappings := cfg.channelToConfigurationId.filter
    (fun kv => kv.2 != configurationId)
  (metadataSetConfig cfg ⟨some newConfigurations, some newMappings⟩ true, true)

end AppConfigurator

/-- `getConfigurationForChannel`: a channel id that is undefined, null
(both embedded as `none`) or empty is falsy and yields null; a missing
or falsy mapping value yields null; a mapped id matching no entry yields
null; otherwise the matching entry.  The function is total — it never
throws. -/
def getConfigurationForChannel (appConfig : AppConfig)
    (channelId : Option String) : Option ConfigEntry :=
  match channelId with
  | none => none
  | some cid =>
      if cid = "" then none
      else
        match jget appConfig.channelToConfigurationId cid with
        | none => none
        | some configurationId =>
            if configurationId = "" then none
            else appConfig.configurations.find?
              (fun config => jget config "configurationId" == some configurationId)

namespace ConfigManager

/-- Observable outcome of the config-manager `addConfigEntry`: the
resulting store, whether the webhook provisioner was invoked, whether a
fresh configuration id was generated, and the returned entry or thrown
error. -/
structure AddOutcome where
  store : AppConfig
  webhookInvoked : Bool
  idGenerated : Bool
  result : Except String ConfigEntry

/-- The config-manager `addConfigEntry`, with the outcomes of the two
awaited collaborator calls passed in explicitly: credential validation
first (its failure propagates before the webhook provisioner is ever
invoked), then webhook provisioning yielding the webhook secret and id
(its failure propagates before id generation and persistence); only
then is the fresh id attached and the assembled entry persisted via the
Configurator. -/
def addConfigEntry (valRes : Except String Unit)
    (whRes : Except String (String × String))
    (newConfigEntry : ConfigEntry) (uuid : String) (cfg : AppConfig) : AddOutcome :=
  match valRes with
  | .error e => ⟨cfg, false, false, .error e⟩
  | .ok () =>
      match whRes with
      | .error e => ⟨cfg, true, false, .error e⟩
      | .ok (webhookSecret, webhookId) =>
          let config := jset (jset (jset newConfigEntry
            "webhookSecret" webhookSecret)
            "webhookId" webhookId)
            "configurationId" uuid
          ⟨AppConfigurator.setConfigEntry cfg config, true, true, .ok config⟩

/-- Observable outcome of the config-manager `deleteConfigEntry`:
whether the processor-side webhook deletion was attempted, whether that
attempt failed (the failure is caught and only logged), the resulting
store, and the replace flag of the final write. -/
structure DeleteOutcome where
  webhookDeleteAttempted : Bool
  webhookDeleteFailed : Bool
  newStore : AppConfig
  replaceFlag : Bool
deriving DecidableEq

/-- The config-manager `deleteConfigEntry`, with the outcome of the
processor-side webhook deletion call passed in explicitly: a missing
entry throws `EntryNotFoundError`; the webhook deletion is attempted
only when no other entry shares the webhook id, and its failure is
swallowed; the local entry is then removed via the Configurator. -/
def deleteConfigEntry (cfg : AppConfig) (configurationId : String)
    (whDeleteRes : Except String Unit) : Except String DeleteOutcome :=
  let entries := cfg.configurations
  match entries.find? (fun entry => jget entry "configurationId" == some configurationId) with
  | none => .error "EntryNotFoundError"
  | some existingEntry =>
      let otherEntries := entries.filter
        (fun entry => jget entry "configurationId" != some configurationId)
      let isWebhookUsed := otherEntries.any
        (fun entry => jget entry "webhookId" == jget existingEntry "webhookId")
      let webhookDeleteAttempted := !isWebhookUsed
      let webhookDeleteFailed := webhookDeleteAttempted &&
        (match whDeleteRes with
         | .error _ => true
         | .ok _ => false)
      let store := AppConfigurator.deleteConfigEntry cfg configurationId
      .ok ⟨webhookDeleteAttempted, webhookDeleteFailed, store.1, store.2⟩

end ConfigManager

/-! ## Claim theorems -/

/-- C1: for every flow strategy in Authorization, Charge, the result
translation maps processor statuses per the fixed table with the
strategy-determined text before the suffix: requires_payment_method and
processing yield the REQUESTED suffix, requires_action, requires_capture
and requires_confirmation yield the ACTION_REQUIRED suffix, canceled
yields FAILURE, succeeded yields SUCCESS; in particular the three listed
concrete translations hold. -/
theorem stripeIntentResult_table (s : TransactionFlowStrategyEnum) :
    stripePaymentIntentToTransactionResult s "requires_payment_method"
      = some (strategyPfx s ++ "_REQUESTED")
    ∧ stripePaymentIntentToTransactionResult s "processing"
      = some (strategyPfx s ++ "_REQUESTED")
    ∧ stripePaymentIntentToTransactionResult s "requires_action"
      = some (strategyPfx s ++ "_ACTION_REQUIRED")
    ∧ stripePaymentIntentToTransactionResult s "requires_capture"
      = some (strategyPfx s ++ "_ACTION_REQUIRED")
    ∧ stripePaymentIntentToTransactionResult s "requires_confirmation"
      = some (strategyPfx s ++ "_ACTION_REQUIRED")
    ∧ stripePaymentIntentToTransactionResult s "canceled"
      = some (strategyPfx s ++ "_FAILURE")
    ∧ stripePaymentIntentToTransactionResult s "succeeded"
      = some (strategyPfx s ++ "_SUCCESS")
    ∧ stripePaymentIntentToTransactionResult .Authorization "requires_action"
      = some "AUTHORIZATION_ACTION_REQUIRED"
    ∧ stripePaymentIntentToTransactionResult .Charge "succeeded"
      = some "CHARGE_SUCCESS"
    ∧ stripePaymentIntentToTransactionResult .Charge "canceled"
      = some "CHARGE_FAILURE" := by
  cases s <;>
    exact ⟨rfl, rfl, rfl, rfl, rfl, rfl, rfl, rfl, rfl, rfl⟩

/-- C2 counterexample: on a status outside the handled enumeration the
result translation returns the undefined value (none) silently instead
of signalling an explicit unhandled-status condition. -/
theorem stripeIntentResult_unhandled_is_undefined :
    stripePaymentIntentToTransactionResult .Charge "requires_source" = none := rfl

/-- C2 amended: for every processor payment-intent status outside the
handled enumeration, the result translation returns the implicit
undefined value (none); it signals no explicit unhandled-status
condition. -/
theorem stripeIntentResult_unhandled_none
    (s : TransactionFlowStrategyEnum) (status : String)
    (h : status ∉ handledIntentStatuses) :
    stripePaymentIntentToTransactionResult s status = none := by
  simp only [handledIntentStatuses, List.mem_cons, List.mem_singleton,
    not_or] at h
  obtain ⟨h1, h2, h3, h4, h5, h6, h7⟩ := h
  unfold stripePaymentIntentToTransactionResult
  split <;> simp_all

/-- C2 amended, witness at a concrete unhandled status. -/
theorem stripeIntentResult_unhandled_none_witness :
    "requires_source" ∉ handledIntentStatuses
    ∧ stripePaymentIntentToTransactionResult .Authorization "requires_source" = none :=
  ⟨by decide,
   stripeIntentResult_unhandled_none .Authorization "requires_source" (by decide)⟩

/-- C8: evaluating the credential validator at a pair whose publishable
key live check fails shows the code throwing InvalidSecretKeyError with
the secretKey field hint — for both the processor-error and the
call-failure case, the same class — while the error module declares
InvalidPublishableKeyError with the publishableKey field hint for this
purpose. -/
theorem validateStripeKeys_publishable_failure_misattributed :
    validateStripeKeys "sk_test_valid" "pk_test_invalid" none (some .stripeErr)
      = .error ⟨"InvalidSecretKeyError", "secretKey",
          "Provided publishable key is invalid"⟩
    ∧ validateStripeKeys "sk_test_valid" "pk_test_invalid" none (some .otherErr)
      = .error ⟨"InvalidSecretKeyError", "secretKey",
          "There was an error while checking publishable key"⟩
    ∧ errorClassFieldName "InvalidPublishableKeyError" = some "publishableKey"
    ∧ errorClassFieldName "InvalidSecretKeyError" = some "secretKey"
    ∧ ("secretKey" : String) ≠ "publishableKey" := by
  exact ⟨rfl, rfl, rfl, rfl, by decide⟩

/-- C3: an Add whose credential validation fails aborts with that error
before webhook provisioning, id generation and persistence (store
unchanged, provisioner never invoked); an Add whose webhook provisioning
fails aborts with that error before id generation and persistence
(store unchanged). -/
theorem addConfigEntry_aborts_on_failure
    (e : String) (whRes : Except String (String × String))
    (newConfigEntry : ConfigEntry) (uuid : String) (cfg : AppConfig) :
    ConfigManager.addConfigEntry (.error e) whRes newConfigEntry uuid cfg
      = ⟨cfg, false, false, .error e⟩
    ∧ ConfigManager.addConfigEntry (.ok ()) (.error e) newConfigEntry uuid cfg
      = ⟨cfg, true, false, .error e⟩ :=
  ⟨rfl, rfl⟩

/-- C4: deleting an existing configuration id from the aggregate keeps
exactly the entries with a different configuration id and exactly the
channel mappings whose value differs from that id, through one write
carrying the replace flag set to true. -/
theorem configurator_delete_entry_and_mappings
    (cfg : AppConfig) (configurationId : String)
    (hex : ∃ entry ∈ cfg.configurations,
      jget entry "configurationId" = some configurationId) :
    (AppConfigurator.deleteConfigEntry cfg configurationId).2 = true
    ∧ (∀ entry,
        entry ∈ (AppConfigurator.deleteConfigEntry cfg configurationId).1.configurations
          ↔ entry ∈ cfg.configurations
            ∧ jget entry "configurationId" ≠ some configurationId)
    ∧ (∀ kv,
        kv ∈ (AppConfigurator.deleteConfigEntry cfg configurationId).1.channelToConfigurationId
          ↔ kv ∈ cfg.channelToConfigurationId ∧ kv.2 ≠ configurationId) := by
  obtain ⟨entry₀, hmem₀, hid₀⟩ := hex
  refine ⟨rfl, ?_, ?_⟩
  · intro entry
    simp [AppConfigurator.deleteConfigEntry, metadataSetConfig,
      List.mem_filter, bne_iff_ne]
  · intro kv
    simp [AppConfigurator.deleteConfigEntry, metadataSetConfig,
      List.mem_filter, bne_iff_ne]

/-- C4 witness: a concrete aggregate with two entries and two mappings;
deleting the first entry drops it together with the mapping pointing at
it and keeps the second entry and its mapping; the write has the
replace flag. -/
theorem configurator_delete_witness :
    (AppConfigurator.deleteConfigEntry
        ⟨[[("configurationId", "id1")], [("configurationId", "id2")]],
         [("ch1", "id1"), ("ch2", "id2")]⟩ "id1").2 = true
    ∧ [("configurationId", "id1")] ∉
        (AppConfigurator.deleteConfigEntry
          ⟨[[("configurationId", "id1")], [("configurationId", "id2")]],
           [("ch1", "id1"), ("ch2", "id2")]⟩ "id1").1.configurations
    ∧ [("configurationId", "id2")] ∈
        (AppConfigurator.deleteConfigEntry
          ⟨[[("configurationId", "id1")], [("configurationId", "id2")]],
           [("ch1", "id1"), ("ch2", "id2")]⟩ "id1").1.configurations
    ∧ ("ch1", "id1") ∉
        (AppConfigurator.deleteConfigEntry
          ⟨[[("configurationId", "id1")], [("configurationId", "id2")]],
           [("ch1", "id1"), ("ch2", "id2")]⟩ "id1").1.channelToConfigurationId
    ∧ ("ch2", "id2") ∈
        (AppConfigurator.deleteConfigEntry
          ⟨[[("configurationId", "id1")], [("configurationId", "id2")]],
           [("ch1", "id1"), ("ch2", "id2")]⟩ "id1").1.channelToConfigurationId := by
  have h := configurator_delete_entry_and_mappings
    ⟨[[("configurationId", "id1")], [("configurationId", "id2")]],
     [("ch1", "id1"), ("ch2", "id2")]⟩ "id1"
    ⟨[("configurationId", "id1")], by simp, by rfl⟩
  refine ⟨h.1, ?_, ?_, ?_, ?_⟩
  · intro hmem
    exact ((h.2.1 _).mp hmem).2 (by rfl)
  · exact (h.2.1 _).mpr ⟨by simp, by decide⟩
  · intro hmem
    exact ((h.2.2 _).mp hmem).2 (by rfl)
  · exact (h.2.2 _).mpr ⟨by simp, by decide⟩

/-- C5: deleting an existing entry attempts the processor-side webhook
deletion exactly when no other surviving entry (an entry with a
different configuration id) carries the same webhook id: sharing
suppresses the attempt, absence of sharing forces it. -/
theorem manager_delete_webhook_sharing
    (cfg : AppConfig) (configurationId : String)
    (whDeleteRes : Except String Unit) (existingEntry : ConfigEntry)
    (hfind : cfg.configurations.find?
        (fun entry => jget entry "configurationId" == some configurationId)
      = some existingEntry) :
    ∃ out, ConfigManager.deleteConfigEntry cfg configurationId whDeleteRes = .ok out
      ∧ ((∃ other ∈ cfg.configurations,
            jget other "configurationId" ≠ some configurationId
            ∧ jget other "webhookId" = jget existingEntry "webhookId") →
          out.webhookDeleteAttempted = false)
      ∧ ((¬ ∃ other ∈ cfg.configurations,
            jget other "configurationId" ≠ some configurationId
            ∧ jget other "webhookId" = jget existingEntry "webhookId") →
          out.webhookDeleteAttempted = true) := by
  simp only [ConfigManager.deleteConfigEntry, hfind]
  refine ⟨_, rfl, ?_, ?_⟩
  · intro hshare
    have hany : ((cfg.configurations.filter
        (fun entry => jget entry "configurationId" != some configurationId)).any
        (fun entry => jget entry "webhookId" == jget existingEntry "webhookId")) = true := by
      simp only [List.any_eq_true, List.mem_filter, bne_iff_ne, beq_iff_eq]
      obtain ⟨other, hmem, hne, heq⟩ := hshare
      exact ⟨other, ⟨hmem, hne⟩, heq⟩
    simp [hany]
  · intro hshare
    have hany : ((cfg.configurations.filter
        (fun entry => jget entry "configurationId" != some configurationId)).any
        (fun entry => jget entry "webhookId" == jget existingEntry "webhookId")) = false := by
      simp only [List.any_eq_false, List.mem_filter, bne_iff_ne, beq_iff_eq]
      intro other hother
      push_neg at hshare
      exact hshare other hother.1 hother.2
    simp [hany]

/-- C5 witness: in a store with two entries sharing webhook id w, the
deletion of the first does not attempt the remote webhook deletion; in
a store where the second entry has a different webhook id, it does. -/
theorem manager_delete_webhook_sharing_witness :
    (∃ out, ConfigManager.deleteConfigEntry
        ⟨[[("configurationId", "a"), ("webhookId", "w")],
          [("configurationId", "b"), ("webhookId", "w")]], []⟩ "a" (.ok ())
      = .ok out ∧ out.webhookDeleteAttempted = false)
    ∧ (∃ out, ConfigManager.deleteConfigEntry
        ⟨[[("configurationId", "a"), ("webhookId", "w")],
          [("configurationId", "b"), ("webhookId", "x")]], []⟩ "a" (.ok ())
      = .ok out ∧ out.webhookDeleteAttempted = true) := by
  constructor
  · obtain ⟨out, heq, himp, _⟩ := manager_delete_webhook_sharing
      ⟨[[("configurationId", "a"), ("webhookId", "w")],
        [("configurationId", "b"), ("webhookId", "w")]], []⟩ "a" (.ok ())
      [("configurationId", "a"), ("webhookId", "w")] (by rfl)
    exact ⟨out, heq, himp ⟨[("configurationId", "b"), ("webhookId", "w")],
      by simp, by decide, by rfl⟩⟩
  · obtain ⟨out, heq, _, himp⟩ := manager_delete_webhook_sharing
      ⟨[[("configurationId", "a"), ("webhookId", "w")],
        [("configurationId", "b"), ("webhookId", "x")]], []⟩ "a" (.ok ())
      [("configurationId", "a"), ("webhookId", "w")] (by rfl)
    refine ⟨out, heq, himp ?_⟩
    rintro ⟨other, hmem, hne, heq2⟩
    simp only [List.mem_cons, List.not_mem_nil, or_false] at hmem
    rcases hmem with h | h <;> subst h
    · exact hne (by rfl)
    · exact absurd heq2 (by decide)

/-- C6: when the processor-side webhook deletion fails during the
deletion of an existing entry, the failure is swallowed: the operation
still completes with an ok outcome and the local entry is removed from
the recomputed store. -/
theorem manager_delete_swallows_webhook_failure
    (cfg : AppConfig) (configurationId msg : String)
    (existingEntry : ConfigEntry)
    (hfind : cfg.configurations.find?
        (fun entry => jget entry "configurationId" == some configurationId)
      = some existingEntry) :
    ∃ out, ConfigManager.deleteConfigEntry cfg configurationId (.error msg) = .ok out
      ∧ out.newStore = (AppConfigurator.deleteConfigEntry cfg configurationId).1
      ∧ (∀ entry ∈ out.newStore.configurations,
          jget entry "configurationId" ≠ some configurationId) := by
  simp only [ConfigManager.deleteConfigEntry, hfind]
  refine ⟨_, rfl, rfl, ?_⟩
  intro entry hmem
  simp only [AppConfigurator.deleteConfigEntry, metadataSetConfig,
    Option.getD_some, List.mem_filter, bne_iff_ne] at hmem
  exact hmem.2

/-- C6 witness: a concrete store whose only entry is deleted while the
webhook deletion call fails; the outcome is ok and the entry is gone. -/
theorem manager_delete_swallows_webhook_failure_witness :
    ∃ out, ConfigManager.deleteConfigEntry
        ⟨[[("configurationId", "a"), ("webhookId", "w")]], []⟩ "a"
        (.error "stripe unreachable")
      = .ok out
      ∧ out.newStore = (AppConfigurator.deleteConfigEntry
          ⟨[[("configurationId", "a"), ("webhookId", "w")]], []⟩ "a").1
      ∧ (∀ entry ∈ out.newStore.configurations,
          jget entry "configurationId" ≠ some "a") := by
  obtain ⟨out, heq, hst, hrm⟩ := manager_delete_swallows_webhook_failure
    ⟨[[("configurationId", "a"), ("webhookId", "w")]], []⟩ "a" "stripe unreachable"
    [("configurationId", "a"), ("webhookId", "w")] (by rfl)
  exact ⟨out, heq, hst, hrm⟩

/-- C9: setConfigEntry is an upsert leaving the channel mapping
untouched; when an entry with the same configurationId exists (at the
first such index) it is replaced in place by the spread merge with the
supplied fields winning and every other entry keeps its value and list
position; otherwise the payload is appended at the end. -/
theorem configurator_setConfigEntry_upsert (cfg : AppConfig) (u : ConfigEntry) :
    (AppConfigurator.setConfigEntry cfg u).channelToConfigurationId
      = cfg.channelToConfigurationId
    ∧ (∀ i, cfg.configurations.findIdx?
          (fun entry => jget entry "configurationId" == jget u "configurationId")
          = some i →
        (AppConfigurator.setConfigEntry cfg u).configurations
          = cfg.configurations.set i (jmergeObj cfg.configurations[i]! u)
        ∧ jget cfg.configurations[i]! "configurationId" = jget u "configurationId"
        ∧ (∀ j, j ≠ i →
            (AppConfigurator.setConfigEntry cfg u).configurations[j]?
              = cfg.configurations[j]?)
        ∧ ((u.map Prod.fst).Nodup → ∀ k,
            (∀ v, jget u k = some v →
              jget (jmergeObj cfg.configurations[i]! u) k = some v)
            ∧ (jget u k = none →
              jget (jmergeObj cfg.configurations[i]! u) k
                = jget cfg.configurations[i]! k)))
    ∧ (cfg.configurations.findIdx?
          (fun entry => jget entry "configurationId" == jget u "configurationId")
          = none →
        (AppConfigurator.setConfigEntry cfg u).configurations
          = cfg.configurations ++ [u]) := by
  refine ⟨?_, ?_, ?_⟩
  · unfold AppConfigurator.setConfigEntry
    cases hidx : cfg.configurations.findIdx?
        (fun entry => jget entry "configurationId" == jget u "configurationId") <;>
      simp [hidx, metadataSetConfig]
  · intro i hidx
    have hlt : i < cfg.configurations.length ∧
        cfg.configurations.findIdx
          (fun entry => jget entry "configurationId" == jget u "configurationId") = i :=
      List.findIdx?_eq_some_iff_findIdx_eq.mp hidx
    refine ⟨?_, ?_, ?_, ?_⟩
    · simp only [AppConfigurator.setConfigEntry, hidx, metadataSetConfig,
        Option.getD_some]
    · obtain ⟨hl, hf⟩ := hlt
      subst hf
      rw [getElem!_pos cfg.configurations _ hl]
      exact beq_iff_eq.mp (List.findIdx_getElem (w := hl))
    · intro j hj
      simp only [AppConfigurator.setConfigEntry, hidx, metadataSetConfig,
        Option.getD_some]
      exact List.getElem?_set_ne (Ne.symm hj)
    · intro hu k
      have h := jget_jmergeObj cfg.configurations[i]! u k hu
      constructor
      · intro v hv
        rw [hv] at h
        exact h
      · intro hv
        rw [hv] at h
        exact h
  · intro hidx
    simp only [AppConfigurator.setConfigEntry, hidx, metadataSetConfig,
      Option.getD_some]

/-- C9 witness: a concrete aggregate where the upsert of an entry with
an existing configurationId replaces the stored entry in place by the
merge and keeps the mapping, and the upsert of a fresh configurationId
appends. -/
theorem configurator_setConfigEntry_upsert_witness :
    (AppConfigurator.setConfigEntry
        ⟨[[("configurationId", "c1"), ("configurationName", "old")]], [("ch", "c1")]⟩
        [("configurationId", "c1"), ("configurationName", "new")]).configurations
      = [[("configurationId", "c1"), ("configurationName", "old")]].set 0
          (jmergeObj [("configurationId", "c1"), ("configurationName", "old")]
            [("configurationId", "c1"), ("configurationName", "new")])
    ∧ (AppConfigurator.setConfigEntry
        ⟨[[("configurationId", "c1"), ("configurationName", "old")]], [("ch", "c1")]⟩
        [("configurationId", "c1"), ("configurationName", "new")]).channelToConfigurationId
      = [("ch", "c1")]
    ∧ (AppConfigurator.setConfigEntry
        ⟨[[("configurationId", "c1"), ("configurationName", "old")]], [("ch", "c1")]⟩
        [("configurationId", "c2"), ("configurationName", "other")]).configurations
      = [[("configurationId", "c1"), ("configurationName", "old")]]
          ++ [[("configurationId", "c2"), ("configurationName", "other")]] := by
  refine ⟨?_, ?_, ?_⟩
  · exact ((configurator_setConfigEntry_upsert
      ⟨[[("configurationId", "c1"), ("configurationName", "old")]], [("ch", "c1")]⟩
      [("configurationId", "c1"), ("configurationName", "new")]).2.1 0 (by rfl)).1
  · exact (configurator_setConfigEntry_upsert
      ⟨[[("configurationId", "c1"), ("configurationName", "old")]], [("ch", "c1")]⟩
      [("configurationId", "c1"), ("configurationName", "new")]).1
  · exact (configurator_setConfigEntry_upsert
      ⟨[[("configurationId", "c1"), ("configurationName", "old")]], [("ch", "c1")]⟩
      [("configurationId", "c2"), ("configurationName", "other")]).2.2 (by rfl)

/-- C10: getConfigurationForChannel is total and yields null on every
degenerate input: an undefined or null channel id (embedded as none),
an empty channel id, a channel with no mapping, and a mapped
configuration id matching no stored entry. -/
theorem getConfigurationForChannel_null_cases (cfg : AppConfig) :
    getConfigurationForChannel cfg none = none
    ∧ getConfigurationForChannel cfg (some "") = none
    ∧ (∀ cid, jget cfg.channelToConfigurationId cid = none →
        getConfigurationForChannel cfg (some cid) = none)
    ∧ (∀ cid confId, jget cfg.channelToConfigurationId cid = some confId →
        cfg.configurations.find?
          (fun config => jget config "configurationId" == some confId) = none →
        getConfigurationForChannel cfg (some cid) = none) := by
  refine ⟨rfl, rfl, ?_, ?_⟩
  · intro cid hmap
    by_cases hcid : cid = ""
    · simp [getConfigurationForChannel, hcid]
    · simp [getConfigurationForChannel, hcid, hmap]
  · intro cid confId hmap hfind
    by_cases hcid : cid = ""
    · simp [getConfigurationForChannel, hcid]
    · by_cases hconf : confId = ""
      · simp [getConfigurationForChannel, hcid, hmap, hconf]
      · simp [getConfigurationForChannel, hcid, hmap, hconf, hfind]

/-- C10 witness: a concrete aggregate exercising each null case,
including a mapping whose configuration id matches no entry. -/
theorem getConfigurationForChannel_null_cases_witness :
    getConfigurationForChannel
      ⟨[[("configurationId", "c1")]], [("ch1", "c1"), ("ch2", "ghost")]⟩ none = none
    ∧ getConfigurationForChannel
      ⟨[[("configurationId", "c1")]], [("ch1", "c1"), ("ch2", "ghost")]⟩ (some "") = none
    ∧ getConfigurationForChannel
      ⟨[[("configurationId", "c1")]], [("ch1", "c1"), ("ch2", "ghost")]⟩ (some "chX") = none
    ∧ getConfigurationForChannel
      ⟨[[("configurationId", "c1")]], [("ch1", "c1"), ("ch2", "ghost")]⟩ (some "ch2") = none := by
  have h := getConfigurationForChannel_null_cases
    ⟨[[("configurationId", "c1")]], [("ch1", "c1"), ("ch2", "ghost")]⟩
  exact ⟨h.1, h.2.1, h.2.2.1 "chX" (by rfl), h.2.2.2 "ch2" "ghost" (by rfl) (by rfl)⟩

/-- A concrete session initialize event whose caller data carries an
automatic_payment_methods object with enabled false, an extra request
field, and caller metadata already containing an orderId. -/
def sampleInitializeEvent : TransactionSessionEvent :=
  { data := [("automatic_payment_methods", .jobj [("enabled", .jbool false)]),
             ("payment_method_types", .jstr "card"),
             ("metadata", .jobj [("orderId", .jstr "ord_7"),
                                 ("cartToken", .jstr "tok_9")])],
    sourceObject := { typename := .Checkout, id := "checkout_1",
                      channelId := "channel_1",
                      grossAmount := 99, grossCurrency := "USD" },
    actionType := .Charge,
    transactionId := "tx_1" }

/-- Observer reading the enabled flag out of an optional
automatic-payment-methods object. -/
def apmEnabledFlag : Option JVal → Option Bool
  | some (.jobj fields) =>
      match jget fields "enabled" with
      | some (.jbool b) => some b
      | _ => none
  | _ => none

/-- C7 counterexample: on a concrete event the create request
overwrites the caller-supplied automatic_payment_methods value — a key
outside the list of keys the claim allows to be overwritten — and, with
caller metadata already holding an orderId, the resulting metadata of a
Checkout event holds both checkoutId and orderId, not exactly one. -/
theorem sessionCreate_overwrites_beyond_listed_keys :
    jget (transactionSessionInitializeEventToStripeCreate sampleInitializeEvent)
        "automatic_payment_methods" = some (.jobj [("enabled", .jbool true)])
    ∧ jget sampleInitializeEvent.data "automatic_payment_methods"
        = some (.jobj [("enabled", .jbool false)])
    ∧ jget (transactionSessionInitializeEventToStripeCreate sampleInitializeEvent)
        "automatic_payment_methods"
      ≠ jget sampleInitializeEvent.data "automatic_payment_methods"
    ∧ (∃ m, jget (transactionSessionInitializeEventToStripeCreate sampleInitializeEvent)
          "metadata" = some (.jobj m)
        ∧ jget m "checkoutId" = some (.jstr "checkout_1")
        ∧ jget m "orderId" = some (.jstr "ord_7")) := by
  refine ⟨rfl, rfl, ?_, ⟨sessionEventMetadata sampleInitializeEvent, rfl, rfl, rfl⟩⟩
  intro h
  have h2 : (some true : Option Bool) = some false := congrArg apmEnabledFlag h
  exact absurd h2 (by decide)

/-- C7 amended: for every session event, the create and update requests
carry capture_method automatic for Charge and manual for Authorization;
the create request forces automatic_payment_methods to enabled; both
requests carry the same metadata object, which holds the transaction id,
the channel id, and the id key selected by the source object type tag
set to the source object id while the other id key keeps the
caller-supplied metadata value; every caller metadata key outside the
reserved metadata keys is preserved, and every caller data key outside
amount, currency, capture_method, metadata — and, for the create
request only, automatic_payment_methods — is preserved. -/
theorem sessionRequest_construction (event : TransactionSessionEvent) :
    jget (transactionSessionInitializeEventToStripeCreate event) "capture_method"
      = some (.jstr (if event.actionType = .Charge then "automatic" else "manual"))
    ∧ jget (transactionSessionProcessEventToStripeUpdate event) "capture_method"
      = some (.jstr (if event.actionType = .Charge then "automatic" else "manual"))
    ∧ jget (transactionSessionInitializeEventToStripeCreate event)
        "automatic_payment_methods" = some (.jobj [("enabled", .jbool true)])
    ∧ jget (transactionSessionInitializeEventToStripeCreate event) "metadata"
      = some (.jobj (sessionEventMetadata event))
    ∧ jget (transactionSessionProcessEventToStripeUpdate event) "metadata"
      = some (.jobj (sessionEventMetadata event))
    ∧ jget (sessionEventMetadata event) "transactionId"
      = some (.jstr event.transactionId)
    ∧ jget (sessionEventMetadata event) "channelId"
      = some (.jstr event.sourceObject.channelId)
    ∧ (event.sourceObject.typename = .Checkout →
        jget (sessionEventMetadata event) "checkoutId"
          = some (.jstr event.sourceObject.id)
        ∧ jget (sessionEventMetadata event) "orderId"
          = jget (callerMetadata event) "orderId")
    ∧ (event.sourceObject.typename = .Order →
        jget (sessionEventMetadata event) "orderId"
          = some (.jstr event.sourceObject.id)
        ∧ jget (sessionEventMetadata event) "checkoutId"
          = jget (callerMetadata event) "checkoutId")
    ∧ (∀ k, k ≠ "transactionId" → k ≠ "channelId" → k ≠ "checkoutId" →
        k ≠ "orderId" →
        jget (sessionEventMetadata event) k = jget (callerMetadata event) k)
    ∧ (∀ k, k ≠ "amount" → k ≠ "currency" → k ≠ "automatic_payment_methods" →
        k ≠ "capture_method" → k ≠ "metadata" →
        jget (transactionSessionInitializeEventToStripeCreate event) k
          = jget event.data k)
    ∧ (∀ k, k ≠ "amount" → k ≠ "currency" → k ≠ "capture_method" →
        k ≠ "metadata" →
        jget (transactionSessionProcessEventToStripeUpdate event) k
          = jget event.data k) := by
  refine ⟨?_, ?_, ?_, ?_, ?_, ?_, ?_, ?_, ?_, ?_, ?_, ?_⟩
  · simp [transactionSessionInitializeEventToStripeCreate, jget_jset]
  · simp [transactionSessionProcessEventToStripeUpdate, jget_jset]
  · simp [transactionSessionInitializeEventToStripeCreate, jget_jset]
  · simp [transactionSessionInitializeEventToStripeCreate, jget_jset]
  · simp [transactionSessionProcessEventToStripeUpdate, jget_jset]
  · cases hty : event.sourceObject.typename <;>
      simp [sessionEventMetadata, hty, jget_jset]
  · cases hty : event.sourceObject.typename <;>
      simp [sessionEventMetadata, hty, jget_jset]
  · intro hty
    constructor <;> simp [sessionEventMetadata, callerMetadata, hty, jget_jset]
  · intro hty
    constructor <;> simp [sessionEventMetadata, callerMetadata, hty, jget_jset]
  · intro k h1 h2 h3 h4
    cases hty : event.sourceObject.typename <;>
      simp [sessionEventMetadata, callerMetadata, hty, jget_jset,
        Ne.symm h1, Ne.symm h2, Ne.symm h3, Ne.symm h4]
  · intro k h1 h2 h3 h4 h5
    simp [transactionSessionInitializeEventToStripeCreate, jget_jset,
      Ne.symm h1, Ne.symm h2, Ne.symm h3, Ne.symm h4, Ne.symm h5]
  · intro k h1 h2 h3 h4
    simp [transactionSessionProcessEventToStripeUpdate, jget_jset,
      Ne.symm h1, Ne.symm h2, Ne.symm h3, Ne.symm h4]

/-- C7 amended, witness at the concrete sample event: the Checkout
branch of the metadata clause and one preserved extra field on each of
the three preservation clauses. -/
theorem sessionRequest_construction_witness :
    (jget (sessionEventMetadata sampleInitializeEvent) "checkoutId"
        = some (.jstr "checkout_1")
      ∧ jget (sessionEventMetadata sampleInitializeEvent) "orderId"
        = jget (callerMetadata sampleInitializeEvent) "orderId")
    ∧ jget (sessionEventMetadata sampleInitializeEvent) "cartToken"
      = jget (callerMetadata sampleInitializeEvent) "cartToken"
    ∧ jget (transactionSessionInitializeEventToStripeCreate sampleInitializeEvent)
        "payment_method_types" = jget sampleInitializeEvent.data "payment_method_types"
    ∧ jget (transactionSessionProcessEventToStripeUpdate sampleInitializeEvent)
        "automatic_payment_methods"
      = jget sampleInitializeEvent.data "automatic_payment_methods" := by
  have h := sessionRequest_construction sampleInitializeEvent
  refine ⟨h.2.2.2.2.2.2.2.1 (by rfl), ?_, ?_, ?_⟩
  · exact h.2.2.2.2.2.2.2.2.2.1 "cartToken"
      (by decide) (by decide) (by decide) (by decide)
  · exact h.2.2.2.2.2.2.2.2.2.2.1 "payment_method_types"
      (by decide) (by decide) (by decide) (by decide) (by decide)
  · exact h.2.2.2.2.2.2.2.2.2.2.2 "automatic_payment_methods"
      (by decide) (by decide) (by decide) (by decide)

/-- C1 witness: the translation table at the Charge strategy and the
succeeded status. -/
theorem stripeIntentResult_table_witness :
    stripePaymentIntentToTransactionResult .Charge "succeeded"
      = some (strategyPfx .Charge ++ "_SUCCESS") :=
  (stripeIntentResult_table .Charge).2.2.2.2.2.2.1

/-- C3 witness: a concrete Add on the empty store whose credential
validation fails leaves the store empty, never invokes the webhook
provisioner, generates no id, and aborts with the validation error. -/
theorem addConfigEntry_aborts_on_failure_witness :
    ConfigManager.addConfigEntry (.error "invalid key") (.ok ("whsec_1", "wh_1"))
        [("configurationName", "test")] "uuid-1" ⟨[], []⟩
      = ⟨⟨[], []⟩, false, false, .error "invalid key"⟩ :=
  (addConfigEntry_aborts_on_failure "invalid key" (.ok ("whsec_1", "wh_1"))
    [("configurationName", "test")] "uuid-1" ⟨[], []⟩).1
